import Mathlib

/-!
Verification development for the RACR_AI repository: a shallow embedding of
the device identity / fleet reconciliation core (`api/network.py`,
`api/utils.py`, `api/device.py`) together with proofs of the testable
properties of its specification.

External effects (DNS lookups, MAC probes, socket connections, SSH
transports, subprocess launches) are modelled as explicit parameters:
a function under test receives the outcome of each external call as an
argument, and the Lean definition mirrors the Python control flow exactly.
-/

namespace RACR

/-! ### api/network.py : convert_tenacity

Python source:
```
tenacity = int(tenacity)
if tenacity < 1: tenacity = 1
elif tenacity > 5: tenacity = 5
repeats = tenacity
wait_time = 0.01 * 2**tenacity
recurse = sum(((tenacity > 1), (tenacity > 4)))
return repeats, wait_time, recurse
```
The float `0.01 * 2**tenacity` is modelled as the rational
`(1/100) * 2 ^ tenacity`.
-/

/-- Clamping of a tenacity value to [1,5], mirroring the two `if` branches. -/
def clampTenacity (t : Int) : Int :=
  if t < 1 then 1 else if t > 5 then 5 else t

/-- Model of `convert_tenacity`: returns `(repeats, wait_time, recurse)`. -/
def convert_tenacity (t : Int) : Int × ℚ × Nat :=
  let tenacity := clampTenacity t
  (tenacity,
   (1 / 100 : ℚ) * 2 ^ tenacity.toNat,
   (if tenacity > 1 then 1 else 0) + (if tenacity > 4 then 1 else 0))

theorem clampTenacity_mem (t : Int) : 1 ≤ clampTenacity t ∧ clampTenacity t ≤ 5 := by
  unfold clampTenacity
  split <;> [omega; (split <;> omega)]

/-- C1: the tenacity conversion clamps its input to [1,5]; `repeats` and
`wait_time` are non-decreasing functions of the clamped tenacity;
`recurse` (the recursion budget) is positive exactly when the clamped
tenacity exceeds the threshold 1, so tenacity 1 yields recursion budget 0. -/
theorem convert_tenacity_spec :
    (∀ t : Int, 1 ≤ clampTenacity t ∧ clampTenacity t ≤ 5) ∧
    (∀ t₁ t₂ : Int, clampTenacity t₁ ≤ clampTenacity t₂ →
      (convert_tenacity t₁).1 ≤ (convert_tenacity t₂).1 ∧
      (convert_tenacity t₁).2.1 ≤ (convert_tenacity t₂).2.1) ∧
    (∀ t : Int, 0 < (convert_tenacity t).2.2 ↔ 1 < clampTenacity t) ∧
    (convert_tenacity 1).2.2 = 0 := by
  refine ⟨clampTenacity_mem, ?_, ?_, ?_⟩
  · intro t₁ t₂ h
    refine ⟨h, ?_⟩
    have hn : (clampTenacity t₁).toNat ≤ (clampTenacity t₂).toNat :=
      Int.toNat_le_toNat h
    have hpow : (2 : ℚ) ^ (clampTenacity t₁).toNat ≤ 2 ^ (clampTenacity t₂).toNat :=
      pow_le_pow_right₀ (by norm_num) hn
    simpa [convert_tenacity] using
      mul_le_mul_of_nonneg_left hpow (by norm_num : (0 : ℚ) ≤ 1 / 100)
  · intro t
    simp only [convert_tenacity]
    constructor
    · intro h
      by_contra hc
      simp [not_lt] at hc
      have h1 : ¬ (clampTenacity t > 1) := by omega
      have h4 : ¬ (clampTenacity t > 4) := by omega
      simp [h1, h4] at h
    · intro h
      have h1 : clampTenacity t > 1 := h
      simp [h1]
  · decide

theorem convert_tenacity_spec_witness :
    clampTenacity 2 ≤ clampTenacity 5 ∧
    (convert_tenacity 2).1 ≤ (convert_tenacity 5).1 ∧
    (convert_tenacity 2).2.1 ≤ (convert_tenacity 5).2.1 :=
  ⟨by decide,
   (convert_tenacity_spec.2.1 2 5 (by decide)).1,
   (convert_tenacity_spec.2.1 2 5 (by decide)).2⟩

/-! ### api/utils.py : run_bash_script_and_return_results

Python source (effects abstracted):
```
try:
    ... run the script ...
    exit_code = result.returncode
    permission_to_run = True
except PermissionError:
    exit_code = 2 ** len(error_code_flags) - 1
    permission_to_run = False
if invert_bits:
    exit_code = ~exit_code
check_results = {}
for i, check in enumerate(error_code_flags):
    check_results[check] = (exit_code & (1 << i)) != 0
if invert_bits:
    check_results["permission_ok"] = permission_to_run
else:
    check_results["permission_error"] = not permission_to_run
return check_results
```
The launch outcome (normal exit code, or `PermissionError`) is a parameter;
the insertion-ordered Python dict is modelled as an association list.
-/

/-- Outcome of launching the bash script. -/
inductive LaunchResult where
  | success (returncode : Int)
  | permissionError
  deriving DecidableEq

/-- Python bitwise NOT (`~e`) on an arbitrary-precision integer. -/
def pyNotInt (e : Int) : Int := -e - 1

/-- Bit `i` of an integer in two_s-complement, i.e. Python
`(e & (1 << i)) != 0` for a possibly negative `e`. -/
def pyTestBit : Int → Nat → Bool
  | .ofNat m, i => m.testBit i
  | .negSucc m, i => !(m.testBit i)

/-- Model of `run_bash_script_and_return_results`. -/
def run_bash_script_and_return_results (error_code_flags : List String)
    (invert_bits : Bool) (launch : LaunchResult) : List (String × Bool) :=
  let ec_perm : Int × Bool :=
    match launch with
    | .success c => (c, true)
    | .permissionError => (2 ^ error_code_flags.length - 1, false)
  let exit_code := if invert_bits then pyNotInt ec_perm.1 else ec_perm.1
  let check_results := error_code_flags.enum.map fun p => (p.2, pyTestBit exit_code p.1)
  check_results ++
    [if invert_bits then ("permission_ok", ec_perm.2)
     else ("permission_error", !ec_perm.2)]

theorem pyNotInt_natCast (e : Nat) : pyNotInt (e : Int) = Int.negSucc e := by
  rw [Int.negSucc_eq, pyNotInt]
  ring

theorem pyTestBit_natCast (e i : Nat) : pyTestBit (e : Int) i = e.testBit i := rfl

theorem pyTestBit_pyNotInt_natCast (e i : Nat) :
    pyTestBit (pyNotInt (e : Int)) i = !(e.testBit i) := by
  rw [pyNotInt_natCast]
  rfl

/-- The i-th entry of the flag portion of the result list. -/
theorem getElem?_append_map_enum {α β : Type} (f : Nat × α → β) (l : List α)
    (tail : List β) (i : Nat) (h : i < l.length) :
    ((l.enum.map f) ++ tail)[i]? = some (f (i, l.get ⟨i, h⟩)) := by
  rw [List.getElem?_append_left (by simpa [List.enum_eq_enumFrom] using h)]
  simp [List.enum_eq_enumFrom, List.getElem?_enumFrom, List.getElem?_eq_getElem h,
    List.get_eq_getElem]

/-- C2: for a script exiting with code `e`, flag `i` is mapped to the value of
bit `i` of `e` (complemented when `invert_bits` is set); in particular exit
code 0b101 with flags a,b,c yields a,c set without inversion and b set with
inversion. -/
theorem run_bash_bitmask_spec :
    (∀ (e : Nat) (flags : List String) (invert : Bool) (i : Nat)
      (h : i < flags.length),
      (run_bash_script_and_return_results flags invert
          (LaunchResult.success (e : Int)))[i]?
        = some (flags.get ⟨i, h⟩,
            if invert then !(e.testBit i) else e.testBit i)) ∧
    run_bash_script_and_return_results ["a", "b", "c"] false
        (LaunchResult.success 5)
      = [("a", true), ("b", false), ("c", true), ("permission_error", false)] ∧
    run_bash_script_and_return_results ["a", "b", "c"] true
        (LaunchResult.success 5)
      = [("a", false), ("b", true), ("c", false), ("permission_ok", true)] := by
  refine ⟨?_, by decide, by decide⟩
  intro e flags invert i h
  simp only [run_bash_script_and_return_results]
  rw [getElem?_append_map_enum _ _ _ i h]
  cases invert <;>
    simp [pyTestBit_natCast, pyTestBit_pyNotInt_natCast]

theorem run_bash_bitmask_spec_witness :
    (run_bash_script_and_return_results ["x", "y"] false
        (LaunchResult.success ((2 : Nat) : Int)))[1]?
      = some ("y", if false then !(Nat.testBit 2 1) else Nat.testBit 2 1) :=
  run_bash_bitmask_spec.1 2 ["x", "y"] false 1 (by decide)

/-- C3: when launching the script raises `PermissionError`, every named flag
reports failure (`True` normally, `False` under `invert_bits`) and the result
additionally carries the distinguished permission entry (`permission_error`
set to `True`, or `permission_ok` set to `False`). -/
theorem run_bash_permission_error_spec :
    ∀ (flags : List String) (invert : Bool),
      (∀ (i : Nat) (h : i < flags.length),
        (run_bash_script_and_return_results flags invert
            LaunchResult.permissionError)[i]?
          = some (flags.get ⟨i, h⟩, !invert)) ∧
      (run_bash_script_and_return_results flags invert
          LaunchResult.permissionError).getLast?
        = some (if invert then ("permission_ok", false)
            else ("permission_error", true)) := by
  intro flags invert
  have h2 : (1 : Nat) ≤ 2 ^ flags.length := Nat.one_le_two_pow
  have hcast : ((2 : Int) ^ flags.length - 1) = ((2 ^ flags.length - 1 : Nat) : Int) := by
    rw [Nat.cast_sub h2]
    push_cast
    ring
  have hbitf : ∀ j, j < flags.length →
      pyTestBit ((2 : Int) ^ flags.length - 1) j = true := by
    intro j hj
    rw [hcast, pyTestBit_natCast]
    simp [Nat.testBit_two_pow_sub_one, hj]
  have hbitt : ∀ j, j < flags.length →
      pyTestBit (pyNotInt ((2 : Int) ^ flags.length - 1)) j = false := by
    intro j hj
    rw [hcast, pyTestBit_pyNotInt_natCast]
    simp [Nat.testBit_two_pow_sub_one, hj]
  constructor
  · intro i h
    simp only [run_bash_script_and_return_results]
    rw [getElem?_append_map_enum _ _ _ i h]
    cases invert <;> simp [hbitf i h, hbitt i h]
  · simp only [run_bash_script_and_return_results]
    rw [List.getLast?_concat]
    simp

theorem run_bash_permission_error_spec_witness :
    (run_bash_script_and_return_results ["x"] false
        LaunchResult.permissionError)[0]? = some ("x", !false) :=
  (run_bash_permission_error_spec ["x"] false).1 0 (by decide)

/-! ### api/network.py : mac_doublecheck

Python source (probe effects abstracted):
```
macs = []
for i in range(repeat):
    macs.append(get_mac_address(...))
    time.sleep(wait)
macs = list(set(macs))
for m in macs:
    if bool(m) and not m == "00:00:00:00:00:00":
        return m
return None
```
The per-attempt probe results are the parameter `probes`; the Python
language does not specify the iteration order of `set(macs)`, so the model
quantifies over every duplicate-free reordering `deduped` of the distinct
probe results.
-/

def zeroMac : String := "00:00:00:00:00:00"

/-- Python truthiness of a `get_mac_address` result (`None` or a string). -/
def pyBool : Option String → Bool
  | none => false
  | some s => !s.isEmpty

/-- The loop guard `bool(m) and not m == "00:00:00:00:00:00"`. -/
def validMac (m : Option String) : Bool :=
  pyBool m && !(m == some zeroMac)

/-- `deduped` is one possible value of `list(set(probes))`: the distinct
elements of `probes` in some (unspecified) order. -/
def IsSetEnum (probes deduped : List (Option String)) : Prop :=
  deduped.Perm probes.dedup

/-- Model of `mac_doublecheck` applied to `deduped = list(set(macs))`. -/
def mac_doublecheck (deduped : List (Option String)) : Option String :=
  match deduped.find? validMac with
  | some m => m
  | none => none

/-- The claim in the specification words, for comparison: the first
non-null, non-zero result found across attempts (in attempt order). -/
def firstValidAcrossAttempts (probes : List (Option String)) : Option String :=
  match probes.find? validMac with
  | some m => m
  | none => none

theorem validMac_exists_some {m : Option String} (h : validMac m = true) :
    ∃ s, m = some s := by
  cases m with
  | none => simp [validMac, pyBool] at h
  | some s => exact ⟨s, rfl⟩

theorem mac_doublecheck_eq_join (deduped : List (Option String)) :
    mac_doublecheck deduped = (deduped.find? validMac).join := by
  unfold mac_doublecheck
  cases deduped.find? validMac <;> rfl

theorem mem_iff_of_isSetEnum {probes deduped : List (Option String)}
    (h : IsSetEnum probes deduped) :
    ∀ m, m ∈ deduped ↔ m ∈ probes := by
  intro m
  rw [h.mem_iff, List.mem_dedup]

/-- C4 (amended): `mac_doublecheck` never returns the all-zero MAC, returns
`none` exactly when no attempt produced a non-null, non-empty, non-zero MAC,
and any MAC it returns is one of the valid results collected across the
attempts. -/
theorem mac_doublecheck_spec (probes deduped : List (Option String))
    (h : IsSetEnum probes deduped) :
    mac_doublecheck deduped ≠ some zeroMac ∧
    (mac_doublecheck deduped = none ↔ ∀ m ∈ probes, validMac m = false) ∧
    (∀ s, mac_doublecheck deduped = some s →
      some s ∈ probes ∧ validMac (some s) = true) := by
  have hmem := mem_iff_of_isSetEnum h
  rw [mac_doublecheck_eq_join]
  refine ⟨?_, ⟨?_, ?_⟩, ?_⟩
  · cases hf : deduped.find? validMac with
    | none => simp
    | some m =>
      have hv : validMac m = true := List.find?_some hf
      intro hc
      rw [show (some m).join = m from rfl] at hc
      rw [hc] at hv
      simp [validMac, zeroMac] at hv
  · intro hnone m hm
    cases hf : deduped.find? validMac with
    | none =>
      have := List.find?_eq_none.mp hf m ((hmem m).mpr hm)
      simpa using this
    | some m' =>
      rw [hf] at hnone
      obtain ⟨s, rfl⟩ := validMac_exists_some (List.find?_some hf)
      simp at hnone
  · intro hall
    cases hf : deduped.find? validMac with
    | none => simp
    | some m' =>
      have hv : validMac m' = true := List.find?_some hf
      have hmem' : m' ∈ probes := (hmem m').mp (List.mem_of_find?_eq_some hf)
      rw [hall m' hmem'] at hv
      simp at hv
  · intro s hs
    cases hf : deduped.find? validMac with
    | none => rw [hf] at hs; simp at hs
    | some m' =>
      rw [hf] at hs
      rw [show (some m').join = m' from rfl] at hs
      subst hs
      exact ⟨(hmem _).mp (List.mem_of_find?_eq_some hf), List.find?_some hf⟩

theorem mac_doublecheck_spec_witness :
    IsSetEnum [some "aa:aa:aa:aa:aa:aa", none] [some "aa:aa:aa:aa:aa:aa", none] ∧
    mac_doublecheck [some "aa:aa:aa:aa:aa:aa", none] ≠ some zeroMac :=
  ⟨by unfold IsSetEnum; decide,
   (mac_doublecheck_spec [some "aa:aa:aa:aa:aa:aa", none]
     [some "aa:aa:aa:aa:aa:aa", none] (by unfold IsSetEnum; decide)).1⟩

/-- C4 counterexample to the claim as stated: with two distinct valid MACs
collected across the attempts, a legitimate enumeration order of
`set(macs)` makes `mac_doublecheck` return the second-seen MAC, not the
first one found across attempts. -/
theorem mac_doublecheck_not_first_counterexample :
    IsSetEnum [some "aa:aa:aa:aa:aa:aa", some "bb:bb:bb:bb:bb:bb"]
      [some "bb:bb:bb:bb:bb:bb", some "aa:aa:aa:aa:aa:aa"] ∧
    mac_doublecheck [some "bb:bb:bb:bb:bb:bb", some "aa:aa:aa:aa:aa:aa"]
      ≠ firstValidAcrossAttempts
          [some "aa:aa:aa:aa:aa:aa", some "bb:bb:bb:bb:bb:bb"] := by
  constructor
  · unfold IsSetEnum
    decide
  · decide

/-! ### api/network.py : Device.fetch_data

Python source (network effects abstracted into `NetEnv`):
```
data = {"last_ip": last_ip, "current_mac": mac_address, "hostname": hostname}
if not data.get("last_ip"):
    if data.get("hostname"):
        try: data["last_ip"] = socket.gethostbyname(data["hostname"])
        except socket.gaierror: pass
    if data.get("current_mac") and not data.get("last_ip"):
        try: data["last_ip"] = cls.get_ip_from_mac(data["current_mac"])
        except NoIPFoundException: pass
if not data.get("current_mac"):
    if data.get("hostname"):
        data["current_mac"] = mac_doublecheck(data["hostname"], ...)
    if data.get("last_ip") and not data.get("current_mac"):
        data["current_mac"] = mac_doublecheck(data["last_ip"], ...)
if not data.get("hostname"):
    if data.get("last_ip"):
        try: data["hostname"] = socket.gethostbyaddr(data["last_ip"])[0]
        except socket.herror: pass
if recurse > 0 and not all(data.values()):
    return cls.fetch_data(**data, recurse=recurse - 1)
else:
    return data
```
The recursive call unpacks the dict keys `last_ip`, `current_mac`,
`hostname` as keyword arguments, but the signature of `fetch_data` names
its MAC parameter `mac_address` and takes no `**kwargs`, so whenever that
branch is reached Python raises
`TypeError: fetch_data() got an unexpected keyword argument` — the model
returns an `Except.error` there.
-/

/-- Outcomes of the external name/MAC lookups used by one enrichment pass
(`none` models the exception / null-result path). -/
structure NetEnv where
  gethostbyname : String → Option String
  gethostbyaddr : String → Option String
  get_ip_from_mac : String → Option String
  macProbe : String → Option String

/-- The partial identity record carried by `fetch_data`. -/
structure IdRecord where
  last_ip : Option String
  current_mac : Option String
  hostname : Option String
  deriving DecidableEq

/-- One enrichment pass of `fetch_data` (everything before the recursion). -/
def fetchPass (env : NetEnv) (d0 : IdRecord) : IdRecord :=
  let d1 :=
    if !(pyBool d0.last_ip) then
      let dA :=
        if pyBool d0.hostname then
          match env.gethostbyname (d0.hostname.getD "") with
          | some ip => { d0 with last_ip := some ip }
          | none => d0
        else d0
      if pyBool dA.current_mac && !(pyBool dA.last_ip) then
        match env.get_ip_from_mac (dA.current_mac.getD "") with
        | some ip => { dA with last_ip := some ip }
        | none => dA
      else dA
    else d0
  let d2 :=
    if !(pyBool d1.current_mac) then
      let dB :=
        if pyBool d1.hostname then
          { d1 with current_mac := env.macProbe (d1.hostname.getD "") }
        else d1
      if pyBool dB.last_ip && !(pyBool dB.current_mac) then
        { dB with current_mac := env.macProbe (dB.last_ip.getD "") }
      else dB
    else d1
  if !(pyBool d2.hostname) then
    if pyBool d2.last_ip then
      match env.gethostbyaddr (d2.last_ip.getD "") with
      | some hn => { d2 with hostname := some hn }
      | none => d2
    else d2
  else d2

/-- Python `all(data.values())` over the three identity fields. -/
def allValues (d : IdRecord) : Bool :=
  pyBool d.last_ip && pyBool d.current_mac && pyBool d.hostname

/-- Model of `Device.fetch_data`: one pass, then either return, or reach the
recursive call, which raises `TypeError` (wrong keyword name). -/
def fetch_data (env : NetEnv) (last_ip mac_address hostname : Option String)
    (recurse : Nat) : Except String IdRecord :=
  let data := fetchPass env ⟨last_ip, mac_address, hostname⟩
  if recurse > 0 && !(allValues data) then
    Except.error "TypeError: fetch_data got an unexpected keyword argument current_mac"
  else
    Except.ok data

/-- An environment where every lookup fails (an isolated network). -/
def emptyNetEnv : NetEnv :=
  ⟨fun _ => none, fun _ => none, fun _ => none, fun _ => none⟩

/-- C5: evaluating `fetch_data` at a concrete input that leaves a field
unresolved with recursion budget 1 reaches the recursive call and raises
`TypeError` instead of recursing, because the call passes the keyword
`current_mac` while the parameter is named `mac_address`. -/
theorem fetch_data_typeerror_at_failing_input :
    fetch_data emptyNetEnv none none (some "pi.local") 1
      = Except.error
          "TypeError: fetch_data got an unexpected keyword argument current_mac" := by
  rfl

/-! ### api/device.py : Device session state

`Device.connected` together with the health of the transport and a count of
`ssh.connect` handshakes. `ssh_server_is_open` mirrors:
```
if not self.connected: return False
try:
    self.ssh.exec_command("echo", timeout=1)
    return True
except Exception as e:
    self.connected = False
    return False
```
-/

structure SSHSession where
  connected : Bool
  execOk : Bool
  connectCalls : Nat
  deriving DecidableEq

/-- Model of `Device.ssh_server_is_open` (returns the probe result and the
possibly updated session state). -/
def ssh_server_is_open (s : SSHSession) : Bool × SSHSession :=
  if !s.connected then (false, s)
  else if s.execOk then (true, s)
  else (false, { s with connected := false })

/-- Outcome of a `self.ssh.connect(...)` handshake attempt. -/
inductive ConnectOutcome where
  | success
  | authRejected
  | noValidConnections
  | otherFailure
  deriving DecidableEq

/-- The exception surfaced by a failed `ssh.connect`. -/
inductive ConnectError where
  | authenticationException
  | noValidConnectionsError
  | otherException
  deriving DecidableEq

/-- Model of `Device._connect_to_ssh_client`:
```
if self.connected and self.ssh_server_is_open(): return
...build connect_kwargs...
self.ssh.connect(self.host, **connect_kwargs)
self.connected = True
```
Returns the exception raised (if any) with the resulting session state;
every reached `ssh.connect` call increments `connectCalls`. -/
def _connect_to_ssh_client (outcome : ConnectOutcome) (s : SSHSession) :
    Option ConnectError × SSHSession :=
  let p := ssh_server_is_open s
  if s.connected && p.1 then (none, p.2)
  else
    match outcome with
    | .success =>
      (none, { p.2 with connected := true, connectCalls := p.2.connectCalls + 1 })
    | .authRejected =>
      (some ConnectError.authenticationException,
       { p.2 with connectCalls := p.2.connectCalls + 1 })
    | .noValidConnections =>
      (some ConnectError.noValidConnectionsError,
       { p.2 with connectCalls := p.2.connectCalls + 1 })
    | .otherFailure =>
      (some ConnectError.otherException,
       { p.2 with connectCalls := p.2.connectCalls + 1 })

/-- The connection phase of `Device.__init__`:
```
try:
    self._connect_to_ssh_client(input_lock=input_lock)
except paramiko.AuthenticationException:
    logger.warning(f"Device {name} rejected credentials.")
except Exception as e:
    logger.info(f"Device {name} unavailable: {e}")
```
Both handlers only log, so no exception leaves the constructor. -/
def device_init_connect (outcome : ConnectOutcome) (s : SSHSession) :
    Option ConnectError × SSHSession :=
  match _connect_to_ssh_client outcome s with
  | (some ConnectError.authenticationException, s1) => (none, s1)
  | (some _, s1) => (none, s1)
  | (none, s1) => (none, s1)

/-- A freshly constructed Device before connecting: the class attribute
default is `connected: bool = False`. -/
def freshSession (execOk : Bool) : SSHSession :=
  ⟨false, execOk, 0⟩

/-- C6: connecting is idempotent — on a session already marked connected
whose liveness probe succeeds, `_connect_to_ssh_client` returns without any
further handshake: the session state (in particular `connectCalls`) is
unchanged and no error is raised. -/
theorem connect_idempotent (outcome : ConnectOutcome) (s : SSHSession)
    (hc : s.connected = true) (he : s.execOk = true) :
    _connect_to_ssh_client outcome s = (none, s) := by
  simp [_connect_to_ssh_client, ssh_server_is_open, hc, he]

theorem connect_idempotent_witness :
    _connect_to_ssh_client ConnectOutcome.otherFailure ⟨true, true, 3⟩
      = (none, ⟨true, true, 3⟩) :=
  connect_idempotent ConnectOutcome.otherFailure ⟨true, true, 3⟩ rfl rfl

/-- C7 counterexample: constructing a Device whose credentials are rejected
does NOT propagate the authentication failure — `Device.__init__` catches
`paramiko.AuthenticationException` and only logs a warning, so the
constructor completes normally (while the inner `_connect_to_ssh_client`
did raise it). -/
theorem device_init_swallows_auth_counterexample :
    (device_init_connect ConnectOutcome.authRejected (freshSession true)).1 = none ∧
    (_connect_to_ssh_client ConnectOutcome.authRejected (freshSession true)).1
      = some ConnectError.authenticationException := by
  decide

/-- C7 (amended): `_connect_to_ssh_client` surfaces rejected credentials as
`AuthenticationException`, distinct from the unreachable-host error; but
`Device.__init__` catches it, so construction completes normally with
`connected = False`. -/
theorem device_init_auth_spec :
    ∀ s : SSHSession, s.connected = false →
      _connect_to_ssh_client ConnectOutcome.authRejected s
        = (some ConnectError.authenticationException,
           { s with connectCalls := s.connectCalls + 1 }) ∧
      ConnectError.authenticationException ≠ ConnectError.noValidConnectionsError ∧
      (device_init_connect ConnectOutcome.authRejected s).1 = none ∧
      (device_init_connect ConnectOutcome.authRejected s).2.connected = false := by
  intro s h
  have h1 : _connect_to_ssh_client ConnectOutcome.authRejected s
      = (some ConnectError.authenticationException,
         { s with connectCalls := s.connectCalls + 1 }) := by
    simp [_connect_to_ssh_client, ssh_server_is_open, h]
  refine ⟨h1, by decide, ?_, ?_⟩ <;>
    simp [device_init_connect, h1, h]

theorem device_init_auth_spec_witness :
    _connect_to_ssh_client ConnectOutcome.authRejected (freshSession true)
      = (some ConnectError.authenticationException,
         { freshSession true with connectCalls := (freshSession true).connectCalls + 1 }) ∧
    ConnectError.authenticationException ≠ ConnectError.noValidConnectionsError ∧
    (device_init_connect ConnectOutcome.authRejected (freshSession true)).1 = none ∧
    (device_init_connect ConnectOutcome.authRejected (freshSession true)).2.connected
      = false :=
  device_init_auth_spec (freshSession true) rfl

/-! ### api/device.py : Device.is_setup -/

/-- Exceptions raised by `is_setup`. -/
inductive SetupError where
  | deviceUnavailableException
  | rpcTestException
  deriving DecidableEq

/-- Model of `Device.is_setup`:
```
if not self.ssh_server_is_open():
    if suppress: return False
    else: raise DeviceUnavailableException(...)
try:
    return self.rpc_mm_test()
except Exception as e:
    if suppress: print(e); return False
    else: raise e
```
`rpc` is the outcome of `rpc_mm_test` (`none` = it raised). -/
def is_setup (suppress : Bool) (rpc : Option Bool) (s : SSHSession) :
    Except SetupError (Bool × SSHSession) :=
  let p := ssh_server_is_open s
  if !p.1 then
    if suppress then Except.ok (false, p.2)
    else Except.error SetupError.deviceUnavailableException
  else
    match rpc with
    | some b => Except.ok (b, p.2)
    | none =>
      if suppress then Except.ok (false, p.2)
      else Except.error SetupError.rpcTestException

/-- C8 counterexample: with the default `suppress=False`, checking setup
status on a device whose SSH server is not open raises
`DeviceUnavailableException` instead of reporting failure. -/
theorem is_setup_raises_counterexample :
    is_setup false (some true) ⟨false, true, 0⟩
      = Except.error SetupError.deviceUnavailableException := by
  rfl

/-- C8 (amended): `is_setup` reports failure rather than raising only when
called with `suppress = True`; with the default `suppress = False` it raises
`DeviceUnavailableException` whenever the SSH server is not open. -/
theorem is_setup_suppress_spec :
    ∀ (rpc : Option Bool) (s : SSHSession),
      is_setup true rpc s
        = Except.ok ((ssh_server_is_open s).1 && rpc.getD false,
            (ssh_server_is_open s).2) ∧
      ((ssh_server_is_open s).1 = false →
        is_setup false rpc s = Except.error SetupError.deviceUnavailableException) := by
  intro rpc s
  constructor
  · by_cases h : (ssh_server_is_open s).1 <;> cases rpc <;>
      simp [is_setup, h]
  · intro h
    simp [is_setup, h]

theorem is_setup_suppress_spec_witness :
    is_setup false (some true) (freshSession false)
      = Except.error SetupError.deviceUnavailableException :=
  (is_setup_suppress_spec (some true) (freshSession false)).2 (by decide)

/-! ### api/network.py : Device.is_listening and Device.is_responsive

Python exception semantics for the two socket probes:
```
def is_listening(...):                 def is_responsive(...):
    s = socket.socket(...)                 s = socket.socket(...)
    s.settimeout(ttl)                      s.settimeout(ttl)
    try:                                   try:
        s.connect((str(host), port))           s.connect((self.get_current_ip(), port))
        return True                        except (socket.timeout, ConnectionRefusedError):
    except (socket.timeout,                    return False
            ConnectionRefusedError):       finally:
        return False                           s.close()
    finally:                                   return True
        s.close()
```
A `return` inside `finally` discards any in-flight exception and any
pending return value — that is the one non-obvious Python rule the model
encodes (`pyFinallyReturn`).
-/

/-- The Python exceptions relevant to the two probes. -/
inductive PyExn where
  | socketTimeout
  | connectionRefused
  | gaierror
  | oserror
  | noIPFound
  | missingDeviceData
  deriving DecidableEq

/-- How a piece of Python code finishes: with a (pending return) value, or
with an in-flight exception. -/
inductive PyResult (α : Type) where
  | ret (v : α)
  | exn (e : PyExn)
  deriving DecidableEq

/-- `except (..): return handlerVal` applied to the outcome of a try body. -/
def pyExceptReturn {α : Type} (body : PyResult α) (handles : PyExn → Bool)
    (handlerVal : α) : PyResult α :=
  match body with
  | .ret v => .ret v
  | .exn e => if handles e then .ret handlerVal else .exn e

/-- A `finally` block ending in `return v`: by Python semantics it discards
the in-flight exception or pending return of the protected code. -/
def pyFinallyReturn {α β : Type} (_r : PyResult α) (v : β) : PyResult β :=
  .ret v

/-- The exception tuple `(socket.timeout, ConnectionRefusedError)`. -/
def catchTimeoutRefused : PyExn → Bool
  | .socketTimeout => true
  | .connectionRefused => true
  | _ => false

/-- Outcome of `s.connect((str(host), port))` in `is_listening`. -/
inductive SocketConnectOutcome where
  | success
  | timedOut
  | refused
  | unresolvableHost
  | otherOSFailure
  deriving DecidableEq

/-- The try body of `is_listening`: connect then `return True`. -/
def listeningBody : SocketConnectOutcome → PyResult Bool
  | .success => .ret true
  | .timedOut => .exn .socketTimeout
  | .refused => .exn .connectionRefused
  | .unresolvableHost => .exn .gaierror
  | .otherOSFailure => .exn .oserror

/-- Model of `Device.is_listening`; the second component records that
`finally: s.close()` ran (it runs on every path). -/
def is_listening (o : SocketConnectOutcome) : PyResult Bool × Bool :=
  (pyExceptReturn (listeningBody o) catchTimeoutRefused false, true)

/-- C9 counterexample: connecting to an unresolvable host raises
`socket.gaierror`, which `is_listening` does not catch, so the probe
propagates an exception instead of returning False. -/
theorem is_listening_raises_counterexample :
    (is_listening SocketConnectOutcome.unresolvableHost).1
      = PyResult.exn PyExn.gaierror := by
  rfl

/-- C9 (amended): `is_listening` returns True on success, returns False on
connection timeout or refusal, and closes the socket on every exit path —
but any other network failure (unresolvable host, other OS errors)
propagates as an exception rather than returning False. -/
theorem is_listening_spec :
    ∀ o : SocketConnectOutcome,
      (is_listening o).2 = true ∧
      (o = SocketConnectOutcome.success →
        (is_listening o).1 = PyResult.ret true) ∧
      (o = SocketConnectOutcome.timedOut ∨ o = SocketConnectOutcome.refused →
        (is_listening o).1 = PyResult.ret false) := by
  intro o
  cases o <;> simp [is_listening, listeningBody, pyExceptReturn, catchTimeoutRefused]

theorem is_listening_spec_witness :
    (is_listening SocketConnectOutcome.timedOut).2 = true ∧
    (is_listening SocketConnectOutcome.timedOut).1 = PyResult.ret false :=
  ⟨(is_listening_spec SocketConnectOutcome.timedOut).1,
   (is_listening_spec SocketConnectOutcome.timedOut).2.2 (Or.inl rfl)⟩

/-- Outcome of `s.connect((self.get_current_ip(), port))` in
`is_responsive`: `get_current_ip` itself can raise before the connect. -/
inductive RespOutcome where
  | success
  | timedOut
  | refused
  | noIPFoundErr
  | missingDataErr
  | otherOSFailure
  deriving DecidableEq

/-- The try body of `is_responsive`: just the connect, no return. -/
def responsiveBody : RespOutcome → PyResult Unit
  | .success => .ret ()
  | .timedOut => .exn .socketTimeout
  | .refused => .exn .connectionRefused
  | .noIPFoundErr => .exn .noIPFound
  | .missingDataErr => .exn .missingDeviceData
  | .otherOSFailure => .exn .oserror

/-- Model of `Device.is_responsive`: try body, the `except ...: return False`
handler, then `finally: s.close(); return True`, which supersedes both. The
second component records that the socket was closed. -/
def is_responsive (o : RespOutcome) : PyResult Bool × Bool :=
  let afterTry : PyResult (Option Bool) :=
    match responsiveBody o with
    | .ret _ => .ret none
    | .exn e => .exn e
  let pending := pyExceptReturn afterTry catchTimeoutRefused (some false)
  (pyFinallyReturn pending true, true)

/-- C10: `is_responsive` returns True for every outcome of the connection
attempt — success, timeout, refusal, failure to determine the IP, or any
other error — never returns False and never propagates an exception,
because the `return True` in its `finally` block supersedes both the
`return False` of the except branch and any in-flight exception. -/
theorem is_responsive_always_true :
    ∀ o : RespOutcome, is_responsive o = (PyResult.ret true, true) := by
  intro o
  cases o <;> rfl

end RACR
